import Mathlib

/-
Verification of the mailboxvalidator Rust client library (src/lib.rs).

The library exposes three blocking operations — validate_email,
is_disposable_email, is_free_email — that build a GET URL by plain string
interpolation, send one request, and classify the response by status code:
200 decodes the body as the operation's success record, 400/401 decode it
as the shared error record, and any other status yields Ok(Null).

Shallow embedding choices:
- serde_json values are modelled by the inductive `Json`; JSON numbers are
  modelled as `Rat` (the f64 fields carry arbitrary JSON numbers, the i64
  field requires an integral number; i64 range overflow never arises in the
  claims, so Int is used unbounded).
- serde derive deserialization of a struct: required fields must occur
  exactly once with the right type; `Option<bool>` fields map a missing key
  or an explicit null to `none` and a boolean to `some`; unknown keys are
  ignored; a struct field occurring twice is a "duplicate field" error.
- serde serialization (serde_json::json!(&parsed)): an object listing every
  field in declaration order, with `None` serialized as an explicit null.
- The network is a function from the request URL to an outcome (transport
  failure or an HTTP response); the response body is `Option Json`, `none`
  standing for a body that is not valid JSON (res.json() parse failure).
- Each operation returns its Rust result together with the list of URLs it
  requested, so that "exactly one GET request" is statable.
-/

namespace MailboxValidator

/-- JSON values as in serde_json: null, booleans, numbers, strings, arrays
and objects (objects keep their key/value list). -/
inductive Json where
  | null
  | bool (b : Bool)
  | num (q : Rat)
  | str (s : String)
  | arr (elems : List Json)
  | obj (fields : List (String × Json))

/-- Keys of a JSON object (empty for non-objects). -/
def Json.objKeys : Json → List String
  | .obj kvs => kvs.map (fun p => p.1)
  | _ => []

/-- Indexing a JSON document by key, as serde_json Value indexing used in
the crate's doc examples: the first value under the key, Null when the key
is missing or the value is not an object. -/
def Json.get (j : Json) (k : String) : Json :=
  match j with
  | .obj kvs =>
      match kvs.find? (fun p => p.1 == k) with
      | some p => p.2
      | none => Json.null
  | _ => Json.null

/-- All values bound to key `k` in an object's field list, in order. -/
def getAll (kvs : List (String × Json)) (k : String) : List Json :=
  match kvs with
  | [] => []
  | (k2, v) :: rest => if k2 = k then v :: getAll rest k else getAll rest k

/-- A required struct field: present exactly once (serde errors on a missing
required field and on a duplicate field). -/
def jsonField (kvs : List (String × Json)) (k : String) : Option Json :=
  match getAll kvs k with
  | [v] => some v
  | _ => none

/-- A required `String` field. -/
def strField (kvs : List (String × Json)) (k : String) : Option String :=
  match jsonField kvs k with
  | some (.str s) => some s
  | _ => none

/-- A required `i64` field: the JSON number must be an integer. -/
def intField (kvs : List (String × Json)) (k : String) : Option Int :=
  match jsonField kvs k with
  | some (.num q) => if q.den = 1 then some q.num else none
  | _ => none

/-- A required `f64` field: any JSON number. -/
def ratField (kvs : List (String × Json)) (k : String) : Option Rat :=
  match jsonField kvs k with
  | some (.num q) => some q
  | _ => none

/-- Decode the occurrences of an `Option<bool>` field: missing or null
decodes to `none`, a boolean to `some`; anything else (wrong type,
duplicate) is an error. -/
def decodeOptBoolVals : List Json → Option (Option Bool)
  | [] => some none
  | [.null] => some none
  | [.bool b] => some (some b)
  | _ => none

/-- An `Option<bool>` struct field, looked up by key. -/
def optBoolField (kvs : List (String × Json)) (k : String) : Option (Option Bool) :=
  decodeOptBoolVals (getAll kvs k)

/-- MailboxValidator Single Validation API result record
(struct SingleEmailValidationRecord in src/lib.rs). -/
structure SingleEmailValidationRecord where
  email_address : String
  base_email_address : String
  domain : String
  is_free : Option Bool
  is_syntax : Option Bool
  is_domain : Option Bool
  is_smtp : Option Bool
  is_verified : Option Bool
  is_server_down : Option Bool
  is_greylisted : Option Bool
  is_disposable : Option Bool
  is_suppressed : Option Bool
  is_role : Option Bool
  is_high_risk : Option Bool
  is_catchall : Option Bool
  is_dmarc_enforced : Option Bool
  is_strict_spf : Option Bool
  website_exist : Option Bool
  status : Option Bool
  mailboxvalidator_score : Rat
  time_taken : Rat
  credits_available : Int
deriving DecidableEq

/-- MailboxValidator Disposable Email API result record
(struct DisposableEmailRecord in src/lib.rs). -/
structure DisposableEmailRecord where
  email_address : String
  is_disposable : Option Bool
  credits_available : Int
deriving DecidableEq

/-- MailboxValidator Free Email API result record
(struct FreeEmailRecord in src/lib.rs). -/
structure FreeEmailRecord where
  email_address : String
  is_free : Option Bool
  credits_available : Int
deriving DecidableEq

/-- Inner error payload (struct ErrorRecord1 in src/lib.rs). -/
structure ErrorRecord1 where
  error_code : Int
  error_message : String
deriving DecidableEq

/-- MailboxValidator error object (struct ErrorRecord in src/lib.rs):
wraps the inner payload under the key "error". -/
structure ErrorRecord where
  error : ErrorRecord1
deriving DecidableEq

/-- Applicative application on Option: apply a partially decoded
constructor to the next decoded field, failing if either side failed.
Decoding a serde struct is the sequential composition of its field
decoders; over Option the applicative composition is equivalent. -/
def oapp {α β : Type} (f : Option (α → β)) (x : Option α) : Option β :=
  match f, x with
  | some g, some a => some (g a)
  | _, _ => none

/-- serde deserialization of SingleEmailValidationRecord from a JSON value. -/
def decodeSingleEmailValidationRecord (j : Json) : Option SingleEmailValidationRecord :=
  match j with
  | .obj kvs =>
      oapp (oapp (oapp (oapp (oapp (oapp (oapp (oapp (oapp (oapp (oapp (oapp
      (oapp (oapp (oapp (oapp (oapp (oapp (oapp (oapp (oapp (oapp
        (some SingleEmailValidationRecord.mk)
        (strField kvs "email_address"))
        (strField kvs "base_email_address"))
        (strField kvs "domain"))
        (optBoolField kvs "is_free"))
        (optBoolField kvs "is_syntax"))
        (optBoolField kvs "is_domain"))
        (optBoolField kvs "is_smtp"))
        (optBoolField kvs "is_verified"))
        (optBoolField kvs "is_server_down"))
        (optBoolField kvs "is_greylisted"))
        (optBoolField kvs "is_disposable"))
        (optBoolField kvs "is_suppressed"))
        (optBoolField kvs "is_role"))
        (optBoolField kvs "is_high_risk"))
        (optBoolField kvs "is_catchall"))
        (optBoolField kvs "is_dmarc_enforced"))
        (optBoolField kvs "is_strict_spf"))
        (optBoolField kvs "website_exist"))
        (optBoolField kvs "status"))
        (ratField kvs "mailboxvalidator_score"))
        (ratField kvs "time_taken"))
        (intField kvs "credits_available")
  | _ => none

/-- serde deserialization of DisposableEmailRecord from a JSON value. -/
def decodeDisposableEmailRecord (j : Json) : Option DisposableEmailRecord :=
  match j with
  | .obj kvs => do
      let email_address ← strField kvs "email_address"
      let is_disposable ← optBoolField kvs "is_disposable"
      let credits_available ← intField kvs "credits_available"
      some { email_address, is_disposable, credits_available }
  | _ => none

/-- serde deserialization of FreeEmailRecord from a JSON value. -/
def decodeFreeEmailRecord (j : Json) : Option FreeEmailRecord :=
  match j with
  | .obj kvs => do
      let email_address ← strField kvs "email_address"
      let is_free ← optBoolField kvs "is_free"
      let credits_available ← intField kvs "credits_available"
      some { email_address, is_free, credits_available }
  | _ => none

/-- serde deserialization of the inner error payload. -/
def decodeErrorRecord1 (j : Json) : Option ErrorRecord1 :=
  match j with
  | .obj kvs => do
      let error_code ← intField kvs "error_code"
      let error_message ← strField kvs "error_message"
      some { error_code, error_message }
  | _ => none

/-- serde deserialization of ErrorRecord: an object with a single required
field "error" holding the inner payload. -/
def decodeErrorRecord (j : Json) : Option ErrorRecord :=
  match j with
  | .obj kvs => do
      let inner ← jsonField kvs "error"
      let error ← decodeErrorRecord1 inner
      some { error }
  | _ => none

/-- serde serialization of an `Option<bool>` field value: `None` becomes an
explicit JSON null (the source derives Serialize with no skip attribute). -/
def encodeOptBool : Option Bool → Json
  | none => Json.null
  | some b => Json.bool b

/-- serde serialization of SingleEmailValidationRecord, fields in
declaration order (what serde_json::json!(&parsed) produces). -/
def encodeSingleEmailValidationRecord (r : SingleEmailValidationRecord) : Json :=
  Json.obj
    [ ("email_address", Json.str r.email_address)
    , ("base_email_address", Json.str r.base_email_address)
    , ("domain", Json.str r.domain)
    , ("is_free", encodeOptBool r.is_free)
    , ("is_syntax", encodeOptBool r.is_syntax)
    , ("is_domain", encodeOptBool r.is_domain)
    , ("is_smtp", encodeOptBool r.is_smtp)
    , ("is_verified", encodeOptBool r.is_verified)
    , ("is_server_down", encodeOptBool r.is_server_down)
    , ("is_greylisted", encodeOptBool r.is_greylisted)
    , ("is_disposable", encodeOptBool r.is_disposable)
    , ("is_suppressed", encodeOptBool r.is_suppressed)
    , ("is_role", encodeOptBool r.is_role)
    , ("is_high_risk", encodeOptBool r.is_high_risk)
    , ("is_catchall", encodeOptBool r.is_catchall)
    , ("is_dmarc_enforced", encodeOptBool r.is_dmarc_enforced)
    , ("is_strict_spf", encodeOptBool r.is_strict_spf)
    , ("website_exist", encodeOptBool r.website_exist)
    , ("status", encodeOptBool r.status)
    , ("mailboxvalidator_score", Json.num r.mailboxvalidator_score)
    , ("time_taken", Json.num r.time_taken)
    , ("credits_available", Json.num (r.credits_available : Rat)) ]

/-- serde serialization of DisposableEmailRecord. -/
def encodeDisposableEmailRecord (r : DisposableEmailRecord) : Json :=
  Json.obj
    [ ("email_address", Json.str r.email_address)
    , ("is_disposable", encodeOptBool r.is_disposable)
    , ("credits_available", Json.num (r.credits_available : Rat)) ]

/-- serde serialization of FreeEmailRecord. -/
def encodeFreeEmailRecord (r : FreeEmailRecord) : Json :=
  Json.obj
    [ ("email_address", Json.str r.email_address)
    , ("is_free", encodeOptBool r.is_free)
    , ("credits_available", Json.num (r.credits_available : Rat)) ]

/-- serde serialization of ErrorRecord: the nested error document shape. -/
def encodeErrorRecord (r : ErrorRecord) : Json :=
  Json.obj
    [ ("error", Json.obj
        [ ("error_code", Json.num (r.error.error_code : Rat))
        , ("error_message", Json.str r.error.error_message) ]) ]

/-- reqwest::Error as observable here: a connection-level failure from
send(), or a body parse/deserialize failure from res.json(). -/
inductive ReqError where
  | connect (msg : String)
  | decode
deriving DecidableEq

/-- An HTTP response: status code and body. The body is `none` when the
text is not valid JSON (then res.json() fails before deserialization). -/
structure Response where
  status : Nat
  body : Option Json

/-- Outcome of sending one request: transport failure or a response. -/
inductive NetworkOutcome where
  | fail (msg : String)
  | ok (res : Response)

/-- What one call to an operation does: the URLs it requested (in order)
and the value it returns. -/
structure CallResult where
  requests : List String
  result : Except ReqError Json

/-- The URL the Rust format! macro interpolates in validate_email:
email_address and apikey are embedded verbatim, with no percent-encoding. -/
def singleValidationUrl (email_address apikey : String) : String :=
  "https://api.mailboxvalidator.com/v2/validation/single?email="
    ++ email_address ++ "&key=" ++ apikey ++ "&format=json&source=sdk-rust-mbv"

/-- The URL interpolated in is_disposable_email. -/
def disposableEmailUrl (email_address apikey : String) : String :=
  "https://api.mailboxvalidator.com/v2/email/disposable?email="
    ++ email_address ++ "&key=" ++ apikey ++ "&format=json&source=sdk-rust-mbv"

/-- The URL interpolated in is_free_email. -/
def freeEmailUrl (email_address apikey : String) : String :=
  "https://api.mailboxvalidator.com/v2/email/free?email="
    ++ email_address ++ "&key=" ++ apikey ++ "&format=json&source=sdk-rust-mbv"

/-- fn validate_email (src/lib.rs:127-151): builds the Single Validation
URL by string interpolation, sends one GET, and classifies the response:
200 decodes the success record, 400/401 decode the error record, anything
else prints a message and returns Ok(Null). `net` models the network as a
map from request URL to outcome. -/
def validate_email (email_address apikey : String) (net : String → NetworkOutcome) :
    CallResult :=
  let url := singleValidationUrl email_address apikey
  { requests := [url]
  , result :=
      match net url with
      | .fail e => .error (.connect e)
      | .ok res =>
          if res.status = 200 then
            match res.body.bind decodeSingleEmailValidationRecord with
            | some parsed => .ok (encodeSingleEmailValidationRecord parsed)
            | none => .error .decode
          else if res.status = 400 ∨ res.status = 401 then
            match res.body.bind decodeErrorRecord with
            | some parsed => .ok (encodeErrorRecord parsed)
            | none => .error .decode
          else
            .ok Json.null }

/-- fn is_disposable_email (src/lib.rs:173-197): same shape as
validate_email with the disposable endpoint and record. -/
def is_disposable_email (email_address apikey : String) (net : String → NetworkOutcome) :
    CallResult :=
  let url := disposableEmailUrl email_address apikey
  { requests := [url]
  , result :=
      match net url with
      | .fail e => .error (.connect e)
      | .ok res =>
          if res.status = 200 then
            match res.body.bind decodeDisposableEmailRecord with
            | some parsed => .ok (encodeDisposableEmailRecord parsed)
            | none => .error .decode
          else if res.status = 400 ∨ res.status = 401 then
            match res.body.bind decodeErrorRecord with
            | some parsed => .ok (encodeErrorRecord parsed)
            | none => .error .decode
          else
            .ok Json.null }

/-- fn is_free_email (src/lib.rs:219-243): same shape as validate_email
with the free-email endpoint and record. -/
def is_free_email (email_address apikey : String) (net : String → NetworkOutcome) :
    CallResult :=
  let url := freeEmailUrl email_address apikey
  { requests := [url]
  , result :=
      match net url with
      | .fail e => .error (.connect e)
      | .ok res =>
          if res.status = 200 then
            match res.body.bind decodeFreeEmailRecord with
            | some parsed => .ok (encodeFreeEmailRecord parsed)
            | none => .error .decode
          else if res.status = 400 ∨ res.status = 401 then
            match res.body.bind decodeErrorRecord with
            | some parsed => .ok (encodeErrorRecord parsed)
            | none => .error .decode
          else
            .ok Json.null }

/-- Characters after the first question mark (the raw query string). -/
def afterQuestionMark : List Char → List Char
  | [] => []
  | c :: cs => if c = '?' then cs else afterQuestionMark cs

/-- Split a character list on a separator character. -/
def splitOnSep (sep : Char) : List Char → List (List Char)
  | [] => [[]]
  | c :: cs =>
      if c = sep then [] :: splitOnSep sep cs
      else
        match splitOnSep sep cs with
        | [] => [[c]]
        | g :: gs => (c :: g) :: gs

/-- Split a parameter at its first equals sign into key and value. -/
def splitFirstEq : List Char → List Char × List Char
  | [] => ([], [])
  | c :: cs =>
      if c = '=' then ([], cs)
      else
        let r := splitFirstEq cs
        (c :: r.1, r.2)

/-- The query parameters of a URL as a server would read them: the part
after the first question mark, split on ampersands, each split at its
first equals sign. -/
def queryParams (url : String) : List (String × String) :=
  (splitOnSep '&' (afterQuestionMark url.data)).map
    (fun p => (String.mk (splitFirstEq p).1, String.mk (splitFirstEq p).2))

/-! ### Helper lemmas and concrete fixtures -/

lemma decodeOptBoolVals_encodeOptBool (v : Option Bool) :
    decodeOptBoolVals [encodeOptBool v] = some v := by cases v <;> rfl

lemma oapp_eq_some {α β : Type} {f : Option (α → β)} {x : Option α} {b : β} :
    oapp f x = some b ↔ ∃ g a, f = some g ∧ x = some a ∧ g a = b := by
  cases f <;> cases x <;> simp [oapp]

/-- The 200 body of the spec's disposable-check example. -/
def mailinatorBody : Json :=
  Json.obj [("email_address", Json.str "test@mailinator.com"),
            ("is_disposable", Json.bool true),
            ("credits_available", Json.num 100)]

/-- The record the spec's disposable-check example decodes to. -/
def mailinatorRecord : DisposableEmailRecord :=
  { email_address := "test@mailinator.com", is_disposable := some true,
    credits_available := 100 }

/-- The 401 body of the spec's invalid-key example. -/
def invalidKeyBody : Json :=
  Json.obj [("error", Json.obj [("error_code", Json.num 100),
            ("error_message", Json.str "Invalid API key.")])]

/-- The error record of the spec's invalid-key example. -/
def invalidKeyRecord : ErrorRecord :=
  { error := { error_code := 100, error_message := "Invalid API key." } }

/-- A 200 body missing the required field email_address. -/
def missingFieldBody : Json :=
  Json.obj [("is_disposable", Json.bool true), ("credits_available", Json.num 100)]

/-- A network that answers every request with the given response. -/
def stubNet (res : Response) : String → NetworkOutcome := fun _ => .ok res

/-! ### Claims -/

/-- Claim C1: for every operation, a 200 response whose body decodes as the
operation's success record makes the call return Ok with the JSON document
re-encoded from that record; in particular the disposable check on the
spec's mailinator example body yields a document with is_disposable true
and credits_available 100. -/
theorem ok200_decodes_success_record :
    (∀ (e k : String) (net : String → NetworkOutcome) (res : Response) (j : Json)
        (r : SingleEmailValidationRecord),
      net (singleValidationUrl e k) = .ok res → res.status = 200 → res.body = some j →
      decodeSingleEmailValidationRecord j = some r →
      (validate_email e k net).result = .ok (encodeSingleEmailValidationRecord r))
    ∧ (∀ (e k : String) (net : String → NetworkOutcome) (res : Response) (j : Json)
        (r : DisposableEmailRecord),
      net (disposableEmailUrl e k) = .ok res → res.status = 200 → res.body = some j →
      decodeDisposableEmailRecord j = some r →
      (is_disposable_email e k net).result = .ok (encodeDisposableEmailRecord r))
    ∧ (∀ (e k : String) (net : String → NetworkOutcome) (res : Response) (j : Json)
        (r : FreeEmailRecord),
      net (freeEmailUrl e k) = .ok res → res.status = 200 → res.body = some j →
      decodeFreeEmailRecord j = some r →
      (is_free_email e k net).result = .ok (encodeFreeEmailRecord r))
    ∧ ((is_disposable_email "test@mailinator.com" "KEY"
          (stubNet { status := 200, body := some mailinatorBody })).result =
        .ok (encodeDisposableEmailRecord mailinatorRecord)
      ∧ (encodeDisposableEmailRecord mailinatorRecord).get "is_disposable" = Json.bool true
      ∧ (encodeDisposableEmailRecord mailinatorRecord).get "credits_available" =
          Json.num 100) := by
  refine ⟨?_, ?_, ?_, rfl, rfl, rfl⟩
  · intro e k net res j r hnet h200 hbody hdec
    simp [validate_email, hnet, h200, hbody, hdec]
  · intro e k net res j r hnet h200 hbody hdec
    simp [is_disposable_email, hnet, h200, hbody, hdec]
  · intro e k net res j r hnet h200 hbody hdec
    simp [is_free_email, hnet, h200, hbody, hdec]

/-- Witness for C1: the disposable-check branch applied to the spec's
concrete mailinator example. -/
theorem ok200_decodes_success_record_witness :
    (is_disposable_email "test@mailinator.com" "KEY"
        (stubNet { status := 200, body := some mailinatorBody })).result =
      .ok (encodeDisposableEmailRecord mailinatorRecord) :=
  ok200_decodes_success_record.2.1 "test@mailinator.com" "KEY"
    (stubNet { status := 200, body := some mailinatorBody })
    { status := 200, body := some mailinatorBody } mailinatorBody mailinatorRecord
    rfl rfl rfl rfl

/-- Claim C3: for every operation, a response status other than 200, 400
and 401 makes the call return Ok Json.null, whatever the body is (so the
body is never decoded on this path). -/
theorem other_status_yields_null :
    (∀ (e k : String) (net : String → NetworkOutcome) (res : Response),
      net (singleValidationUrl e k) = .ok res →
      res.status ≠ 200 → res.status ≠ 400 → res.status ≠ 401 →
      (validate_email e k net).result = .ok Json.null)
    ∧ (∀ (e k : String) (net : String → NetworkOutcome) (res : Response),
      net (disposableEmailUrl e k) = .ok res →
      res.status ≠ 200 → res.status ≠ 400 → res.status ≠ 401 →
      (is_disposable_email e k net).result = .ok Json.null)
    ∧ (∀ (e k : String) (net : String → NetworkOutcome) (res : Response),
      net (freeEmailUrl e k) = .ok res →
      res.status ≠ 200 → res.status ≠ 400 → res.status ≠ 401 →
      (is_free_email e k net).result = .ok Json.null) := by
  refine ⟨?_, ?_, ?_⟩
  · intro e k net res hnet h200 h400 h401
    simp [validate_email, hnet, h200, h400, h401]
  · intro e k net res hnet h200 h400 h401
    simp [is_disposable_email, hnet, h200, h400, h401]
  · intro e k net res hnet h200 h400 h401
    simp [is_free_email, hnet, h200, h400, h401]

/-- Witness for C3: a 500 response with an arbitrary body yields Ok null. -/
theorem other_status_yields_null_witness :
    (validate_email "a@b.c" "KEY"
        (stubNet { status := 500, body := some mailinatorBody })).result =
      .ok Json.null :=
  other_status_yields_null.1 "a@b.c" "KEY"
    (stubNet { status := 500, body := some mailinatorBody })
    { status := 500, body := some mailinatorBody }
    rfl (by decide) (by decide) (by decide)

/-- Claim C4: for every operation, a transport-level send failure makes the
call return the Err variant carrying that transport error; no document is
produced. -/
theorem transport_failure_is_err :
    (∀ (e k msg : String) (net : String → NetworkOutcome),
      net (singleValidationUrl e k) = .fail msg →
      (validate_email e k net).result = .error (.connect msg))
    ∧ (∀ (e k msg : String) (net : String → NetworkOutcome),
      net (disposableEmailUrl e k) = .fail msg →
      (is_disposable_email e k net).result = .error (.connect msg))
    ∧ (∀ (e k msg : String) (net : String → NetworkOutcome),
      net (freeEmailUrl e k) = .fail msg →
      (is_free_email e k net).result = .error (.connect msg)) := by
  refine ⟨?_, ?_, ?_⟩
  · intro e k msg net hnet
    simp [validate_email, hnet]
  · intro e k msg net hnet
    simp [is_disposable_email, hnet]
  · intro e k msg net hnet
    simp [is_free_email, hnet]

/-- Witness for C4: an unreachable host yields the connect error. -/
theorem transport_failure_is_err_witness :
    (validate_email "a@b.c" "KEY" (fun _ => .fail "connection refused")).result =
      .error (.connect "connection refused") :=
  transport_failure_is_err.1 "a@b.c" "KEY" "connection refused"
    (fun _ => .fail "connection refused") rfl

/-- Claim C2: for every operation, a 400 or 401 response whose body
decodes as the error record makes the call return Ok (not Err) with the
re-encoded error document of shape {error: {error_code, error_message}};
the result is the same document whichever operation was called, and on the
spec's concrete 401 example the returned document equals the body. -/
theorem service_error_is_ok_document :
    (∀ (e k : String) (net : String → NetworkOutcome) (res : Response) (j : Json)
        (er : ErrorRecord),
      net (singleValidationUrl e k) = .ok res →
      res.status = 400 ∨ res.status = 401 → res.body = some j →
      decodeErrorRecord j = some er →
      (validate_email e k net).result = .ok (encodeErrorRecord er))
    ∧ (∀ (e k : String) (net : String → NetworkOutcome) (res : Response) (j : Json)
        (er : ErrorRecord),
      net (disposableEmailUrl e k) = .ok res →
      res.status = 400 ∨ res.status = 401 → res.body = some j →
      decodeErrorRecord j = some er →
      (is_disposable_email e k net).result = .ok (encodeErrorRecord er))
    ∧ (∀ (e k : String) (net : String → NetworkOutcome) (res : Response) (j : Json)
        (er : ErrorRecord),
      net (freeEmailUrl e k) = .ok res →
      res.status = 400 ∨ res.status = 401 → res.body = some j →
      decodeErrorRecord j = some er →
      (is_free_email e k net).result = .ok (encodeErrorRecord er))
    ∧ (∀ (e k : String) (res : Response) (j : Json) (er : ErrorRecord),
      res.status = 400 ∨ res.status = 401 → res.body = some j →
      decodeErrorRecord j = some er →
      (is_disposable_email e k (stubNet res)).result =
          (validate_email e k (stubNet res)).result ∧
        (is_free_email e k (stubNet res)).result =
          (validate_email e k (stubNet res)).result)
    ∧ ((is_disposable_email "test@mailinator.com" "KEY"
          (stubNet { status := 401, body := some invalidKeyBody })).result =
        .ok invalidKeyBody) := by
  refine ⟨?_, ?_, ?_, ?_, rfl⟩
  · intro e k net res j er hnet hstat hbody hdec
    rcases hstat with h | h <;> simp [validate_email, hnet, h, hbody, hdec]
  · intro e k net res j er hnet hstat hbody hdec
    rcases hstat with h | h <;> simp [is_disposable_email, hnet, h, hbody, hdec]
  · intro e k net res j er hnet hstat hbody hdec
    rcases hstat with h | h <;>
      simp [validate_email, is_free_email, stubNet, hnet, h, hbody, hdec]
  · intro e k res j er hstat hbody hdec
    rcases hstat with h | h <;>
      constructor <;>
      simp [validate_email, is_disposable_email, is_free_email, stubNet, h, hbody, hdec]

/-- Witness for C2: the spec's 401 invalid-key example on the disposable
check returns Ok of the error document. -/
theorem service_error_is_ok_document_witness :
    (is_disposable_email "test@mailinator.com" "KEY"
        (stubNet { status := 401, body := some invalidKeyBody })).result =
      .ok (encodeErrorRecord invalidKeyRecord) :=
  service_error_is_ok_document.2.1 "test@mailinator.com" "KEY"
    (stubNet { status := 401, body := some invalidKeyBody })
    { status := 401, body := some invalidKeyBody } invalidKeyBody invalidKeyRecord
    rfl (Or.inr rfl) rfl rfl

/-- Claim C5: for every operation, when the 200 branch or the 400/401
branch is selected but the body does not decode against that branch's
schema (missing body, invalid JSON, or schema mismatch, e.g. a 200 body
missing email_address), the call returns the Err variant with a decode
error, never an Ok document. -/
theorem branch_decode_failure_is_err :
    (∀ (e k : String) (net : String → NetworkOutcome) (res : Response),
      net (singleValidationUrl e k) = .ok res → res.status = 200 →
      res.body.bind decodeSingleEmailValidationRecord = none →
      (validate_email e k net).result = .error .decode)
    ∧ (∀ (e k : String) (net : String → NetworkOutcome) (res : Response),
      net (singleValidationUrl e k) = .ok res →
      res.status = 400 ∨ res.status = 401 →
      res.body.bind decodeErrorRecord = none →
      (validate_email e k net).result = .error .decode)
    ∧ (∀ (e k : String) (net : String → NetworkOutcome) (res : Response),
      net (disposableEmailUrl e k) = .ok res → res.status = 200 →
      res.body.bind decodeDisposableEmailRecord = none →
      (is_disposable_email e k net).result = .error .decode)
    ∧ (∀ (e k : String) (net : String → NetworkOutcome) (res : Response),
      net (disposableEmailUrl e k) = .ok res →
      res.status = 400 ∨ res.status = 401 →
      res.body.bind decodeErrorRecord = none →
      (is_disposable_email e k net).result = .error .decode)
    ∧ (∀ (e k : String) (net : String → NetworkOutcome) (res : Response),
      net (freeEmailUrl e k) = .ok res → res.status = 200 →
      res.body.bind decodeFreeEmailRecord = none →
      (is_free_email e k net).result = .error .decode)
    ∧ (∀ (e k : String) (net : String → NetworkOutcome) (res : Response),
      net (freeEmailUrl e k) = .ok res →
      res.status = 400 ∨ res.status = 401 →
      res.body.bind decodeErrorRecord = none →
      (is_free_email e k net).result = .error .decode) := by
  refine ⟨?_, ?_, ?_, ?_, ?_, ?_⟩
  · intro e k net res hnet h200 hdec
    simp [validate_email, hnet, h200, hdec]
  · intro e k net res hnet hstat hdec
    rcases hstat with h | h <;> simp [validate_email, hnet, h, hdec]
  · intro e k net res hnet h200 hdec
    simp [is_disposable_email, hnet, h200, hdec]
  · intro e k net res hnet hstat hdec
    rcases hstat with h | h <;> simp [is_disposable_email, hnet, h, hdec]
  · intro e k net res hnet h200 hdec
    simp [is_free_email, hnet, h200, hdec]
  · intro e k net res hnet hstat hdec
    rcases hstat with h | h <;> simp [is_free_email, hnet, h, hdec]

/-- Witness for C5: a 200 response whose body misses the required field
email_address makes validate_email return the decode error. -/
theorem branch_decode_failure_is_err_witness :
    (validate_email "a@b.c" "KEY"
        (stubNet { status := 200, body := some missingFieldBody })).result =
      .error .decode :=
  branch_decode_failure_is_err.1 "a@b.c" "KEY"
    (stubNet { status := 200, body := some missingFieldBody })
    { status := 200, body := some missingFieldBody } rfl rfl rfl

/-- Claim C7: every call issues exactly one GET request, whose URL is the
operation's fixed versioned path on api.mailboxvalidator.com with the
query string email=..&key=..&format=json&source=sdk-rust-mbv built from
the operation's two arguments; on plain inputs the query parses to exactly
those four parameters. -/
theorem one_get_request_fixed_url :
    (∀ (e k : String) (net : String → NetworkOutcome),
      (validate_email e k net).requests = [singleValidationUrl e k]
      ∧ (is_disposable_email e k net).requests = [disposableEmailUrl e k]
      ∧ (is_free_email e k net).requests = [freeEmailUrl e k])
    ∧ (∀ (e k : String),
      singleValidationUrl e k =
        "https://api.mailboxvalidator.com/v2/validation/single?email=" ++ e
          ++ "&key=" ++ k ++ "&format=json&source=sdk-rust-mbv"
      ∧ disposableEmailUrl e k =
        "https://api.mailboxvalidator.com/v2/email/disposable?email=" ++ e
          ++ "&key=" ++ k ++ "&format=json&source=sdk-rust-mbv"
      ∧ freeEmailUrl e k =
        "https://api.mailboxvalidator.com/v2/email/free?email=" ++ e
          ++ "&key=" ++ k ++ "&format=json&source=sdk-rust-mbv")
    ∧ (queryParams (singleValidationUrl "example@example.com" "APIKEY") =
        [("email", "example@example.com"), ("key", "APIKEY"),
         ("format", "json"), ("source", "sdk-rust-mbv")]
      ∧ queryParams (disposableEmailUrl "example@example.com" "APIKEY") =
        [("email", "example@example.com"), ("key", "APIKEY"),
         ("format", "json"), ("source", "sdk-rust-mbv")]
      ∧ queryParams (freeEmailUrl "example@example.com" "APIKEY") =
        [("email", "example@example.com"), ("key", "APIKEY"),
         ("format", "json"), ("source", "sdk-rust-mbv")]) :=
  ⟨fun _ _ _ => ⟨rfl, rfl, rfl⟩, fun _ _ => ⟨rfl, rfl, rfl⟩,
    by decide, by decide, by decide⟩

/-- Claim C10: each operation is deterministic in the response: two calls
with the same arguments whose networks answer the request with responses
of equal status and equal body return equal results. -/
theorem response_determines_result :
    (∀ (e k : String) (net net' : String → NetworkOutcome) (res res' : Response),
      net (singleValidationUrl e k) = .ok res →
      net' (singleValidationUrl e k) = .ok res' →
      res.status = res'.status → res.body = res'.body →
      (validate_email e k net).result = (validate_email e k net').result)
    ∧ (∀ (e k : String) (net net' : String → NetworkOutcome) (res res' : Response),
      net (disposableEmailUrl e k) = .ok res →
      net' (disposableEmailUrl e k) = .ok res' →
      res.status = res'.status → res.body = res'.body →
      (is_disposable_email e k net).result = (is_disposable_email e k net').result)
    ∧ (∀ (e k : String) (net net' : String → NetworkOutcome) (res res' : Response),
      net (freeEmailUrl e k) = .ok res →
      net' (freeEmailUrl e k) = .ok res' →
      res.status = res'.status → res.body = res'.body →
      (is_free_email e k net).result = (is_free_email e k net').result) := by
  refine ⟨?_, ?_, ?_⟩ <;>
  · intro e k net net' res res' hnet hnet' hstat hbody
    obtain ⟨s, b⟩ := res
    obtain ⟨s', b'⟩ := res'
    have hs : s = s' := hstat
    have hb : b = b' := hbody
    subst hs; subst hb
    simp [validate_email, is_disposable_email, is_free_email, hnet, hnet']

/-- Witness for C10: two syntactically different networks answering the
disposable request with the same response give the same result. -/
theorem response_determines_result_witness :
    (is_disposable_email "a@b.c" "KEY"
        (stubNet { status := 200, body := some mailinatorBody })).result =
      (is_disposable_email "a@b.c" "KEY"
        (fun u => if u = "" then .fail "other" else
          .ok { status := 200, body := some mailinatorBody })).result :=
  response_determines_result.2.1 "a@b.c" "KEY"
    (stubNet { status := 200, body := some mailinatorBody })
    (fun u => if u = "" then .fail "other" else
      .ok { status := 200, body := some mailinatorBody })
    { status := 200, body := some mailinatorBody }
    { status := 200, body := some mailinatorBody }
    rfl rfl rfl rfl

/-- The C6 counterexample body: a schema-matching 200 disposable body in
which the optional field is_disposable is absent. -/
def absentOptionalBody : Json :=
  Json.obj [("email_address", Json.str "test@mailinator.com"),
            ("credits_available", Json.num 100)]

/-- Counterexample to claim C6 as stated: a 200 disposable body without
the key is_disposable decodes successfully, but the document the call
returns carries the key is_disposable (with value null): an optional field
absent in the input does not remain absent in the output. -/
theorem absent_optional_field_reencoded_as_null :
    decodeDisposableEmailRecord absentOptionalBody =
      some { email_address := "test@mailinator.com", is_disposable := none,
             credits_available := 100 }
    ∧ (is_disposable_email "test@mailinator.com" "KEY"
        (stubNet { status := 200, body := some absentOptionalBody })).result =
      .ok (Json.obj [("email_address", Json.str "test@mailinator.com"),
                     ("is_disposable", Json.null),
                     ("credits_available", Json.num 100)])
    ∧ "is_disposable" ∈ (Json.obj [("email_address", Json.str "test@mailinator.com"),
                     ("is_disposable", Json.null),
                     ("credits_available", Json.num 100)]).objKeys
    ∧ "is_disposable" ∉ absentOptionalBody.objKeys :=
  ⟨by decide, rfl, by decide, by decide⟩

/-- Claim C6 (amended): decoding then re-encoding round-trips for all
three success record types (decode (encode r) = some r); every field of
the returned document carries the value decoded from the input body; but
the output document always lists every schema key, optional fields that
were absent in the input being re-encoded as explicit nulls rather than
staying absent. -/
theorem decode_encode_roundtrip :
    (∀ r : SingleEmailValidationRecord,
      decodeSingleEmailValidationRecord (encodeSingleEmailValidationRecord r) = some r)
    ∧ (∀ r : DisposableEmailRecord,
      decodeDisposableEmailRecord (encodeDisposableEmailRecord r) = some r)
    ∧ (∀ r : FreeEmailRecord,
      decodeFreeEmailRecord (encodeFreeEmailRecord r) = some r)
    ∧ (∀ (kvs : List (String × Json)) (r : SingleEmailValidationRecord),
      decodeSingleEmailValidationRecord (Json.obj kvs) = some r →
      strField kvs "email_address" = some r.email_address ∧
      strField kvs "base_email_address" = some r.base_email_address ∧
      strField kvs "domain" = some r.domain ∧
      optBoolField kvs "is_free" = some r.is_free ∧
      optBoolField kvs "is_syntax" = some r.is_syntax ∧
      optBoolField kvs "is_domain" = some r.is_domain ∧
      optBoolField kvs "is_smtp" = some r.is_smtp ∧
      optBoolField kvs "is_verified" = some r.is_verified ∧
      optBoolField kvs "is_server_down" = some r.is_server_down ∧
      optBoolField kvs "is_greylisted" = some r.is_greylisted ∧
      optBoolField kvs "is_disposable" = some r.is_disposable ∧
      optBoolField kvs "is_suppressed" = some r.is_suppressed ∧
      optBoolField kvs "is_role" = some r.is_role ∧
      optBoolField kvs "is_high_risk" = some r.is_high_risk ∧
      optBoolField kvs "is_catchall" = some r.is_catchall ∧
      optBoolField kvs "is_dmarc_enforced" = some r.is_dmarc_enforced ∧
      optBoolField kvs "is_strict_spf" = some r.is_strict_spf ∧
      optBoolField kvs "website_exist" = some r.website_exist ∧
      optBoolField kvs "status" = some r.status ∧
      ratField kvs "mailboxvalidator_score" = some r.mailboxvalidator_score ∧
      ratField kvs "time_taken" = some r.time_taken ∧
      intField kvs "credits_available" = some r.credits_available)
    ∧ (∀ (kvs : List (String × Json)) (r : DisposableEmailRecord),
      decodeDisposableEmailRecord (Json.obj kvs) = some r →
      strField kvs "email_address" = some r.email_address ∧
      optBoolField kvs "is_disposable" = some r.is_disposable ∧
      intField kvs "credits_available" = some r.credits_available)
    ∧ (∀ (kvs : List (String × Json)) (r : FreeEmailRecord),
      decodeFreeEmailRecord (Json.obj kvs) = some r →
      strField kvs "email_address" = some r.email_address ∧
      optBoolField kvs "is_free" = some r.is_free ∧
      intField kvs "credits_available" = some r.credits_available)
    ∧ (∀ r : SingleEmailValidationRecord,
      (encodeSingleEmailValidationRecord r).objKeys = ["email_address", "base_email_address", "domain", "is_free", "is_syntax", "is_domain", "is_smtp", "is_verified", "is_server_down", "is_greylisted", "is_disposable", "is_suppressed", "is_role", "is_high_risk", "is_catchall", "is_dmarc_enforced", "is_strict_spf", "website_exist", "status", "mailboxvalidator_score", "time_taken", "credits_available"])
    ∧ (∀ r : DisposableEmailRecord,
      (encodeDisposableEmailRecord r).objKeys =
        ["email_address", "is_disposable", "credits_available"]
      ∧ (encodeDisposableEmailRecord r).get "email_address" = Json.str r.email_address
      ∧ (encodeDisposableEmailRecord r).get "is_disposable" = encodeOptBool r.is_disposable
      ∧ (encodeDisposableEmailRecord r).get "credits_available" =
          Json.num (r.credits_available : Rat))
    ∧ (∀ r : FreeEmailRecord,
      (encodeFreeEmailRecord r).objKeys =
        ["email_address", "is_free", "credits_available"]
      ∧ (encodeFreeEmailRecord r).get "email_address" = Json.str r.email_address
      ∧ (encodeFreeEmailRecord r).get "is_free" = encodeOptBool r.is_free
      ∧ (encodeFreeEmailRecord r).get "credits_available" =
          Json.num (r.credits_available : Rat))
    ∧ encodeOptBool none = Json.null := by
  refine ⟨?_, ?_, ?_, ?_, ?_, ?_, fun r => rfl, fun r => ⟨rfl, rfl, rfl, rfl⟩,
    fun r => ⟨rfl, rfl, rfl, rfl⟩, rfl⟩
  · intro r
    obtain ⟨a1, a2, a3, a4, a5, a6, a7, a8, a9, a10, a11, a12, a13, a14, a15, a16, a17, a18, a19, a20, a21, a22⟩ := r
    simp [decodeSingleEmailValidationRecord, encodeSingleEmailValidationRecord,
      strField, optBoolField, intField, ratField, jsonField, getAll, oapp,
      decodeOptBoolVals_encodeOptBool]
  · intro r
    obtain ⟨ea, isd, ca⟩ := r
    cases isd <;>
      simp [decodeDisposableEmailRecord, encodeDisposableEmailRecord, strField,
        optBoolField, decodeOptBoolVals, intField, jsonField, getAll, encodeOptBool]
  · intro r
    obtain ⟨ea, isf, ca⟩ := r
    cases isf <;>
      simp [decodeFreeEmailRecord, encodeFreeEmailRecord, strField,
        optBoolField, decodeOptBoolVals, intField, jsonField, getAll, encodeOptBool]
  · intro kvs r h
    simp only [decodeSingleEmailValidationRecord, oapp_eq_some, Option.some.injEq] at h
    obtain ⟨g22, a22, h, he22, hg22⟩ := h
    obtain ⟨g21, a21, h, he21, hg21⟩ := h
    obtain ⟨g20, a20, h, he20, hg20⟩ := h
    obtain ⟨g19, a19, h, he19, hg19⟩ := h
    obtain ⟨g18, a18, h, he18, hg18⟩ := h
    obtain ⟨g17, a17, h, he17, hg17⟩ := h
    obtain ⟨g16, a16, h, he16, hg16⟩ := h
    obtain ⟨g15, a15, h, he15, hg15⟩ := h
    obtain ⟨g14, a14, h, he14, hg14⟩ := h
    obtain ⟨g13, a13, h, he13, hg13⟩ := h
    obtain ⟨g12, a12, h, he12, hg12⟩ := h
    obtain ⟨g11, a11, h, he11, hg11⟩ := h
    obtain ⟨g10, a10, h, he10, hg10⟩ := h
    obtain ⟨g9, a9, h, he9, hg9⟩ := h
    obtain ⟨g8, a8, h, he8, hg8⟩ := h
    obtain ⟨g7, a7, h, he7, hg7⟩ := h
    obtain ⟨g6, a6, h, he6, hg6⟩ := h
    obtain ⟨g5, a5, h, he5, hg5⟩ := h
    obtain ⟨g4, a4, h, he4, hg4⟩ := h
    obtain ⟨g3, a3, h, he3, hg3⟩ := h
    obtain ⟨g2, a2, h, he2, hg2⟩ := h
    obtain ⟨g1, a1, hmk, he1, hg1⟩ := h
    subst hmk
    subst hg1
    subst hg2
    subst hg3
    subst hg4
    subst hg5
    subst hg6
    subst hg7
    subst hg8
    subst hg9
    subst hg10
    subst hg11
    subst hg12
    subst hg13
    subst hg14
    subst hg15
    subst hg16
    subst hg17
    subst hg18
    subst hg19
    subst hg20
    subst hg21
    subst hg22
    exact ⟨he1, he2, he3, he4, he5, he6, he7, he8, he9, he10, he11, he12, he13, he14, he15, he16, he17, he18, he19, he20, he21, he22⟩
  · intro kvs r h
    simp only [decodeDisposableEmailRecord, bind, Option.bind_eq_some,
      Option.some.injEq] at h
    obtain ⟨ea, hea, isd, hisd, ca, hca, hr⟩ := h
    subst hr
    exact ⟨hea, hisd, hca⟩
  · intro kvs r h
    simp only [decodeFreeEmailRecord, bind, Option.bind_eq_some,
      Option.some.injEq] at h
    obtain ⟨ea, hea, isf, hisf, ca, hca, hr⟩ := h
    subst hr
    exact ⟨hea, hisf, hca⟩

/-- Witness for C6 (amended): the disposable soundness branch applied to
the spec's mailinator example body. -/
theorem decode_encode_roundtrip_witness :
    strField [("email_address", Json.str "test@mailinator.com"),
              ("is_disposable", Json.bool true),
              ("credits_available", Json.num 100)] "email_address" =
        some mailinatorRecord.email_address
    ∧ optBoolField [("email_address", Json.str "test@mailinator.com"),
              ("is_disposable", Json.bool true),
              ("credits_available", Json.num 100)] "is_disposable" =
        some mailinatorRecord.is_disposable
    ∧ intField [("email_address", Json.str "test@mailinator.com"),
              ("is_disposable", Json.bool true),
              ("credits_available", Json.num 100)] "credits_available" =
        some mailinatorRecord.credits_available :=
  decode_encode_roundtrip.2.2.2.2.1
    [("email_address", Json.str "test@mailinator.com"),
     ("is_disposable", Json.bool true),
     ("credits_available", Json.num 100)] mailinatorRecord rfl

lemma encode_single_ne_error (r : SingleEmailValidationRecord) (er : ErrorRecord) :
    encodeSingleEmailValidationRecord r ≠ encodeErrorRecord er := by
  intro h
  simp [encodeSingleEmailValidationRecord, encodeErrorRecord] at h

lemma encode_disposable_ne_error (r : DisposableEmailRecord) (er : ErrorRecord) :
    encodeDisposableEmailRecord r ≠ encodeErrorRecord er := by
  intro h
  simp [encodeDisposableEmailRecord, encodeErrorRecord] at h

lemma encode_free_ne_error (r : FreeEmailRecord) (er : ErrorRecord) :
    encodeFreeEmailRecord r ≠ encodeErrorRecord er := by
  intro h
  simp [encodeFreeEmailRecord, encodeErrorRecord] at h

/-- Counterexample to claim C8 as stated: a 500 response is not a
transport failure, yet the call returns Ok Json.null, which is neither a
success-record document nor an error-record document — "never neither"
fails. -/
theorem status500_yields_neither_record :
    (validate_email "a@b.c" "KEY"
        (stubNet { status := 500, body := some (Json.obj []) })).result =
      .ok Json.null
    ∧ ¬(∃ r, Json.null = encodeSingleEmailValidationRecord r)
    ∧ ¬(∃ er, Json.null = encodeErrorRecord er) :=
  ⟨rfl, fun ⟨_, h⟩ => Json.noConfusion h, fun ⟨_, h⟩ => Json.noConfusion h⟩

/-- Claim C8 (amended): a success-record document is never an error-record
document; when a call does not end in a transport failure and the response
status is 200, 400 or 401, any Ok document it returns is exactly one of
the two; for any other status the call returns Ok Json.null, which is
neither. -/
theorem exactly_one_record_on_classified_status :
    (∀ (r : SingleEmailValidationRecord) (er : ErrorRecord),
      encodeSingleEmailValidationRecord r ≠ encodeErrorRecord er)
    ∧ (∀ (r : DisposableEmailRecord) (er : ErrorRecord),
      encodeDisposableEmailRecord r ≠ encodeErrorRecord er)
    ∧ (∀ (r : FreeEmailRecord) (er : ErrorRecord),
      encodeFreeEmailRecord r ≠ encodeErrorRecord er)
    ∧ (∀ (e k : String) (net : String → NetworkOutcome) (res : Response) (d : Json),
      net (singleValidationUrl e k) = .ok res →
      res.status = 200 ∨ res.status = 400 ∨ res.status = 401 →
      (validate_email e k net).result = .ok d →
      ((∃ r, d = encodeSingleEmailValidationRecord r) ∧
        ¬(∃ er, d = encodeErrorRecord er)) ∨
      ((∃ er, d = encodeErrorRecord er) ∧
        ¬(∃ r, d = encodeSingleEmailValidationRecord r)))
    ∧ (∀ (e k : String) (net : String → NetworkOutcome) (res : Response) (d : Json),
      net (disposableEmailUrl e k) = .ok res →
      res.status = 200 ∨ res.status = 400 ∨ res.status = 401 →
      (is_disposable_email e k net).result = .ok d →
      ((∃ r, d = encodeDisposableEmailRecord r) ∧
        ¬(∃ er, d = encodeErrorRecord er)) ∨
      ((∃ er, d = encodeErrorRecord er) ∧
        ¬(∃ r, d = encodeDisposableEmailRecord r)))
    ∧ (∀ (e k : String) (net : String → NetworkOutcome) (res : Response) (d : Json),
      net (freeEmailUrl e k) = .ok res →
      res.status = 200 ∨ res.status = 400 ∨ res.status = 401 →
      (is_free_email e k net).result = .ok d →
      ((∃ r, d = encodeFreeEmailRecord r) ∧
        ¬(∃ er, d = encodeErrorRecord er)) ∨
      ((∃ er, d = encodeErrorRecord er) ∧
        ¬(∃ r, d = encodeFreeEmailRecord r)))
    ∧ (∀ (e k : String) (net : String → NetworkOutcome) (res : Response),
      net (singleValidationUrl e k) = .ok res →
      res.status ≠ 200 → res.status ≠ 400 → res.status ≠ 401 →
      (validate_email e k net).result = .ok Json.null ∧
      ¬(∃ r, Json.null = encodeSingleEmailValidationRecord r) ∧
      ¬(∃ er, Json.null = encodeErrorRecord er))
    ∧ (∀ (e k : String) (net : String → NetworkOutcome) (res : Response),
      net (disposableEmailUrl e k) = .ok res →
      res.status ≠ 200 → res.status ≠ 400 → res.status ≠ 401 →
      (is_disposable_email e k net).result = .ok Json.null ∧
      ¬(∃ r, Json.null = encodeDisposableEmailRecord r) ∧
      ¬(∃ er, Json.null = encodeErrorRecord er))
    ∧ (∀ (e k : String) (net : String → NetworkOutcome) (res : Response),
      net (freeEmailUrl e k) = .ok res →
      res.status ≠ 200 → res.status ≠ 400 → res.status ≠ 401 →
      (is_free_email e k net).result = .ok Json.null ∧
      ¬(∃ r, Json.null = encodeFreeEmailRecord r) ∧
      ¬(∃ er, Json.null = encodeErrorRecord er)) := by
  refine ⟨encode_single_ne_error, encode_disposable_ne_error, encode_free_ne_error,
    ?_, ?_, ?_, ?_, ?_, ?_⟩
  · intro e k net res d hnet hstat hok
    rcases hstat with h | h | h
    · cases hb : res.body.bind decodeSingleEmailValidationRecord with
      | none => simp [validate_email, hnet, h, hb] at hok
      | some parsed =>
          simp [validate_email, hnet, h, hb] at hok
          subst hok
          exact Or.inl ⟨⟨parsed, rfl⟩,
            fun ⟨er, hc⟩ => encode_single_ne_error parsed er hc⟩
    · cases hb : res.body.bind decodeErrorRecord with
      | none => simp [validate_email, hnet, h, hb] at hok
      | some er =>
          simp [validate_email, hnet, h, hb] at hok
          subst hok
          exact Or.inr ⟨⟨er, rfl⟩,
            fun ⟨r, hc⟩ => encode_single_ne_error r er hc.symm⟩
    · cases hb : res.body.bind decodeErrorRecord with
      | none => simp [validate_email, hnet, h, hb] at hok
      | some er =>
          simp [validate_email, hnet, h, hb] at hok
          subst hok
          exact Or.inr ⟨⟨er, rfl⟩,
            fun ⟨r, hc⟩ => encode_single_ne_error r er hc.symm⟩
  · intro e k net res d hnet hstat hok
    rcases hstat with h | h | h
    · cases hb : res.body.bind decodeDisposableEmailRecord with
      | none => simp [is_disposable_email, hnet, h, hb] at hok
      | some parsed =>
          simp [is_disposable_email, hnet, h, hb] at hok
          subst hok
          exact Or.inl ⟨⟨parsed, rfl⟩,
            fun ⟨er, hc⟩ => encode_disposable_ne_error parsed er hc⟩
    · cases hb : res.body.bind decodeErrorRecord with
      | none => simp [is_disposable_email, hnet, h, hb] at hok
      | some er =>
          simp [is_disposable_email, hnet, h, hb] at hok
          subst hok
          exact Or.inr ⟨⟨er, rfl⟩,
            fun ⟨r, hc⟩ => encode_disposable_ne_error r er hc.symm⟩
    · cases hb : res.body.bind decodeErrorRecord with
      | none => simp [is_disposable_email, hnet, h, hb] at hok
      | some er =>
          simp [is_disposable_email, hnet, h, hb] at hok
          subst hok
          exact Or.inr ⟨⟨er, rfl⟩,
            fun ⟨r, hc⟩ => encode_disposable_ne_error r er hc.symm⟩
  · intro e k net res d hnet hstat hok
    rcases hstat with h | h | h
    · cases hb : res.body.bind decodeFreeEmailRecord with
      | none => simp [is_free_email, hnet, h, hb] at hok
      | some parsed =>
          simp [is_free_email, hnet, h, hb] at hok
          subst hok
          exact Or.inl ⟨⟨parsed, rfl⟩,
            fun ⟨er, hc⟩ => encode_free_ne_error parsed er hc⟩
    · cases hb : res.body.bind decodeErrorRecord with
      | none => simp [is_free_email, hnet, h, hb] at hok
      | some er =>
          simp [is_free_email, hnet, h, hb] at hok
          subst hok
          exact Or.inr ⟨⟨er, rfl⟩,
            fun ⟨r, hc⟩ => encode_free_ne_error r er hc.symm⟩
    · cases hb : res.body.bind decodeErrorRecord with
      | none => simp [is_free_email, hnet, h, hb] at hok
      | some er =>
          simp [is_free_email, hnet, h, hb] at hok
          subst hok
          exact Or.inr ⟨⟨er, rfl⟩,
            fun ⟨r, hc⟩ => encode_free_ne_error r er hc.symm⟩
  · intro e k net res hnet h200 h400 h401
    exact ⟨by simp [validate_email, hnet, h200, h400, h401],
      fun ⟨_, h⟩ => Json.noConfusion h, fun ⟨_, h⟩ => Json.noConfusion h⟩
  · intro e k net res hnet h200 h400 h401
    exact ⟨by simp [is_disposable_email, hnet, h200, h400, h401],
      fun ⟨_, h⟩ => Json.noConfusion h, fun ⟨_, h⟩ => Json.noConfusion h⟩
  · intro e k net res hnet h200 h400 h401
    exact ⟨by simp [is_free_email, hnet, h200, h400, h401],
      fun ⟨_, h⟩ => Json.noConfusion h, fun ⟨_, h⟩ => Json.noConfusion h⟩

/-- Witness for C8 (amended): the disposable 200 branch applied to the
mailinator example produces a document that is a success record and not an
error record. -/
theorem exactly_one_record_on_classified_status_witness :
    ((∃ r, encodeDisposableEmailRecord mailinatorRecord =
        encodeDisposableEmailRecord r) ∧
      ¬(∃ er, encodeDisposableEmailRecord mailinatorRecord = encodeErrorRecord er)) ∨
    ((∃ er, encodeDisposableEmailRecord mailinatorRecord = encodeErrorRecord er) ∧
      ¬(∃ r, encodeDisposableEmailRecord mailinatorRecord =
        encodeDisposableEmailRecord r)) :=
  exactly_one_record_on_classified_status.2.2.2.2.1 "test@mailinator.com" "KEY"
    (stubNet { status := 200, body := some mailinatorBody })
    { status := 200, body := some mailinatorBody }
    (encodeDisposableEmailRecord mailinatorRecord)
    rfl (Or.inl rfl) rfl

/-- Claim C9: the URLs are built by plain interpolation with no
percent-encoding — the arguments appear verbatim in the URL string — so an
email_address containing URL metacharacters injects query parameters: with
email_address "a&key=EVIL", the query parses to an extra key parameter
that occurs before the real one and shadows it under first-match lookup. -/
theorem query_interpolated_verbatim :
    (∀ (e k : String),
      singleValidationUrl e k =
        "https://api.mailboxvalidator.com/v2/validation/single?email=" ++ e
          ++ "&key=" ++ k ++ "&format=json&source=sdk-rust-mbv"
      ∧ disposableEmailUrl e k =
        "https://api.mailboxvalidator.com/v2/email/disposable?email=" ++ e
          ++ "&key=" ++ k ++ "&format=json&source=sdk-rust-mbv"
      ∧ freeEmailUrl e k =
        "https://api.mailboxvalidator.com/v2/email/free?email=" ++ e
          ++ "&key=" ++ k ++ "&format=json&source=sdk-rust-mbv")
    ∧ queryParams (disposableEmailUrl "a&key=EVIL" "REALKEY") =
        [("email", "a"), ("key", "EVIL"), ("key", "REALKEY"),
         ("format", "json"), ("source", "sdk-rust-mbv")]
    ∧ (queryParams (disposableEmailUrl "a&key=EVIL" "REALKEY")).lookup "key" =
        some "EVIL" :=
  ⟨fun _ _ => ⟨rfl, rfl, rfl⟩, by decide, by decide⟩

end MailboxValidator
